import Mathlib

/-!
Verification of the `mt5_prediction` trading core against its specification.

This file gives a shallow embedding, in Lean 4, of the Python modules
`src/config.py`, `src/core/events.py`, `src/models/data_models.py`,
`src/state.py`, `src/server.py`, `src/strategies/simple_strategy.py`,
`src/patterns/base.py` and `src/ai/predictor.py`, and proves or refutes
the frozen claims about them.

Modelling conventions:
* Python floats are modelled as rationals (`ℚ`); the claims under study are
  about control flow and exact formulas, not float rounding.
* A Python `AttributeError` (the only kind of exception relevant to the
  claims) is modelled by `PyErr`.  Reads of attributes that the source never
  defines (e.g. `config.MIN_CONFIDENCE_FOR_TRADE`, `TradeSettings.symbol`,
  `MarketData.atr` before `evaluate_strategy` sets it) are modelled as
  `Except PyErr` computations that fail with the corresponding error.
* Commands queued to `AppState.pending_commands` are modelled as a structured
  `Cmd` value; the source renders the same fields as a pipe-separated string
  (`f"{action}|{symbol}|{lot}|{sl}|{tp}"` etc.).
-/

/-- A Python `AttributeError`: `owner` has no attribute `attr`. -/
inductive PyErr where
  | attrError (owner attr : String)
  deriving Repr, DecidableEq

/-! ## `src/config.py`

The module-level names that `src/config.py` actually defines (in source
order).  None of the strategy/risk constants referenced by `src/state.py`
(`MIN_CONFIDENCE_FOR_TRADE`, `TP_MIN_MULT`, `TP_MAX_MULT`, `RISK_PER_TRADE`,
`MIN_LOT_SIZE`, `MAX_LOT_SIZE`, `BREAK_EVEN_TRIGGER`, `TRAILING_STOP_MULT`,
`MAX_DAILY_LOSS`) appear in it. -/
def configNames : List String :=
  [ "HOST", "PORT", "ENDPOINT",
    "DEFAULT_SYMBOL", "SYMBOL_OPTIONS", "DEFAULT_LOT_SIZE", "DEFAULT_SL",
    "DEFAULT_TP", "AUTO_LOT_SIZE", "MAX_SPREAD_DEFAULT",
    "FULLSCREEN_MODE", "WINDOW_WIDTH", "WINDOW_HEIGHT",
    "THEME_COLOR", "HEADER_BG", "CARD_BG", "INPUT_BG", "HOVER_BG",
    "TEXT_PRIMARY", "TEXT_SECONDARY", "TEXT_MUTED", "TEXT_ON_ACCENT",
    "ACCENT_GREEN", "ACCENT_RED", "ACCENT_WARNING", "ACCENT_BLUE",
    "ACCENT_PURPLE", "FONT_MAIN", "FONT_BOLD", "FONT_MONO",
    "BUY_THRESHOLD_DEFAULT", "SELL_THRESHOLD_DEFAULT", "NEWS_API_KEY" ]

/-- Does `config.py` define module attribute `n`? -/
def configHasAttr (n : String) : Bool := configNames.contains n

/-- Numeric value of the numeric attributes `config.py` does define
(`getattr(config, n)` for numeric `n`); `0` for names holding non-numbers
(the embedded code never reads those as numbers). -/
def configNumVal (n : String) : ℚ :=
  if n = "PORT" then 5555
  else if n = "AUTO_LOT_SIZE" then 0.01
  else if n = "MAX_SPREAD_DEFAULT" then 50
  else if n = "WINDOW_WIDTH" then 1200
  else if n = "WINDOW_HEIGHT" then 900
  else if n = "BUY_THRESHOLD_DEFAULT" then 0
  else if n = "SELL_THRESHOLD_DEFAULT" then 0
  else 0

/-- Reading a numeric attribute of the `config` module: `config.n` raises
`AttributeError` when `config.py` does not define `n`. -/
def configGetNum (n : String) : Except PyErr ℚ :=
  if configHasAttr n then .ok (configNumVal n) else .error (.attrError "config" n)

/-! ## `src/core/events.py` -/

/-- The members of the `EventType` enumeration, exactly as declared in
`src/core/events.py`. -/
def eventTypeMembers : List String :=
  [ "PRICE_UPDATE", "ACCOUNT_UPDATE", "CONNECTION_CHANGE", "MARKET_STATUS",
    "LOG_MESSAGE", "TRADE_COMMAND", "SETTINGS_CHANGE" ]

/-- `EventType.n`: attribute access on the enumeration; raises
`AttributeError` for names that are not members. -/
def eventTypeGet (n : String) : Except PyErr String :=
  if eventTypeMembers.contains n then .ok n else .error (.attrError "EventType" n)

/-- The event names `AppState.__init__` subscribes to, in source order
(`src/state.py`, lines 35-41). -/
def appStateSubscriptions : List String :=
  [ "PRICE_UPDATE", "ACCOUNT_UPDATE", "POSITIONS_UPDATE", "CONNECTION_CHANGE",
    "SETTINGS_CHANGE", "TRADE_COMMAND", "SYMBOLS_AVAILABLE" ]

/-- The sequence of `EventType` attribute lookups performed by
`AppState.__init__` while registering its handlers; the whole constructor
fails as soon as one lookup raises. -/
def appStateInit : Except PyErr (List String) :=
  appStateSubscriptions.mapM eventTypeGet

/-- The `EventType.POSITIONS_UPDATE` lookup evaluated by
`MT5Handler._process_data` when dispatching a position snapshot
(`src/server.py`, line 136). -/
def serverPositionsEmitLookup : Except PyErr String :=
  eventTypeGet "POSITIONS_UPDATE"

/-- A subscribed handler of the `EventManager`: a name (for the error log)
and the callback body.  The callback may raise; `emit` must contain the
fault. -/
structure Handler (α : Type) where
  name : String
  call : α → Except PyErr Unit

/-- `EventManager.emit` (`src/core/events.py`, lines 31-40): invoke every
subscribed callback in order with the payload; a raising callback is caught
and logged (`print(f"[Error] ...")`) and the loop continues.  The result is
the invocation trace (callback name, payload) together with the list of
logged failures. -/
def emitRun {α : Type} (hs : List (Handler α)) (d : α) :
    List (String × α) × List String :=
  match hs with
  | [] => ([], [])
  | h :: rest =>
    let tail := emitRun rest d
    match h.call d with
    | .ok _ => ((h.name, d) :: tail.1, tail.2)
    | .error _ => ((h.name, d) :: tail.1, h.name :: tail.2)

/-- Whether an `Except` computation raised. -/
def exceptRaised {ε α : Type} : Except ε α → Bool
  | .ok _ => false
  | .error _ => true

/-! ## `src/models/data_models.py` -/

/-- `MarketData` (dataclass).  The dataclass itself declares only the first
eight fields; `atr` and `sma200` are *dynamic* attributes that
`AppState.evaluate_strategy` attaches at runtime (`src/state.py`, lines
206-207), so they are modelled as `Option ℚ` with `none` meaning "attribute
absent" (reading then raises `AttributeError`). -/
structure MarketData where
  symbol : String := ""
  bid : ℚ := 0
  ask : ℚ := 0
  is_open : Bool := false
  prediction : ℚ := 0
  confidence : ℚ := 0
  rsi : ℚ := 0
  sma10 : ℚ := 0
  atr : Option ℚ := none
  sma200 : Option ℚ := none
  deriving Repr, DecidableEq

/-- Reading `market.atr` (raises when the attribute was never attached). -/
def marketGetAtr (m : MarketData) : Except PyErr ℚ :=
  match m.atr with
  | some v => .ok v
  | none => .error (.attrError "MarketData" "atr")

/-- Reading `market.sma200` (raises when the attribute was never attached). -/
def marketGetSma200 (m : MarketData) : Except PyErr ℚ :=
  match m.sma200 with
  | some v => .ok v
  | none => .error (.attrError "MarketData" "sma200")

/-- `AccountData` (dataclass). -/
structure AccountData where
  name : String := "---"
  balance : ℚ := 0
  equity : ℚ := 0
  margin : ℚ := 0
  free_margin : ℚ := 0
  profit : ℚ := 0
  position_count : ℤ := 0
  currency : String := "USD"
  deriving Repr, DecidableEq

/-- `TradeSettings` (dataclass).  Note: the dataclass declares *no* `symbol`
and *no* `auto_lot` field, although `src/state.py` reads both
(`self.settings.symbol` at lines 153/163, `self.settings.auto_lot` at line
321); nothing in the repository ever attaches them dynamically (the UI call
`TradeSettings(symbol=..., auto_sl_tp=...)` in `src/ui/main_window.py` would
itself fail with `TypeError`), so those reads are modelled below as raising
`AttributeError`. -/
structure TradeSettings where
  lot : ℚ := 0.01
  sl : ℚ := 0
  tp : ℚ := 0
  auto_trade : Bool := false
  auto_profit_close : ℚ := 0
  pos_profit_limit : ℚ := 0
  pos_loss_limit : ℚ := 0
  max_positions : ℤ := 5
  buy_threshold : ℚ := 0.75
  sell_threshold : ℚ := 0.75
  deriving Repr, DecidableEq

/-- Reading `settings.symbol` — the dataclass defines no such field. -/
def settingsGetSymbol (_ : TradeSettings) : Except PyErr String :=
  .error (.attrError "TradeSettings" "symbol")

/-- Reading `settings.auto_lot` — the dataclass defines no such field. -/
def settingsGetAutoLot (_ : TradeSettings) : Except PyErr Bool :=
  .error (.attrError "TradeSettings" "auto_lot")

/-- The value of a Python `PositionData.type` field: the dataclass default is
the string `""` and the server parser never fills it, while
`src/state.py` compares it with the ints `0` (BUY) and `1` (SELL). -/
inductive PosType where
  | intVal (n : ℤ)
  | strVal (s : String)
  deriving Repr, DecidableEq

/-- Python `pos.type == n` for an int literal `n` (an int never equals a
string). -/
def ptypeIs (t : PosType) (n : ℤ) : Bool :=
  match t with
  | .intVal m => m == n
  | .strVal _ => false

/-- `PositionData` (dataclass). -/
structure PositionData where
  ticket : ℤ := 0
  symbol : String := ""
  type : PosType := .strVal ""
  volume : ℚ := 0
  price_open : ℚ := 0
  price_current : ℚ := 0
  sl : ℚ := 0
  tp : ℚ := 0
  profit : ℚ := 0
  deriving Repr, DecidableEq

/-! ## `AppState` (`src/state.py`) -/

/-- A key of the `AppState.sent_closures` dict: the code stores both int
keys (position tickets) and string keys (`"CLOSE_ALL"`,
`f"{action}_{ticket}"`). -/
inductive CloseKey where
  | intKey (n : ℤ)
  | strKey (s : String)
  deriving Repr, DecidableEq

/-- `key in sent_closures` / `sent_closures[key]` lookup. -/
def lookupClosure (m : List (CloseKey × ℚ)) (k : CloseKey) : Option ℚ :=
  match m with
  | [] => none
  | (k', v) :: rest => if k' = k then some v else lookupClosure rest k

/-- `sent_closures[key] = now` (dict assignment: replace or append). -/
def insertClosure (m : List (CloseKey × ℚ)) (k : CloseKey) (v : ℚ) :
    List (CloseKey × ℚ) :=
  match m with
  | [] => [(k, v)]
  | (k', v') :: rest =>
    if k' = k then (k', v) :: rest else (k', v') :: insertClosure rest k v

/-- A command queued on `AppState.pending_commands`.  The source appends the
same fields rendered as a pipe-separated string
(e.g. `f"CLOSE_TICKET|{ticket}|0|0|0"`). -/
inductive Cmd where
  | dataSync (symbol tf bars : String)
  | closeTicket (ticket : Option ℤ)
  | modifyTicket (ticket : Option ℤ) (sl tp : Option ℚ)
  | order (action symbol : String) (lot sl tp : ℚ)
  deriving Repr, DecidableEq

/-- The core state held by `AppState.__init__` (`src/state.py`, lines 11-33).
`last_heartbeat`, `server_config`, the strategy object and the predictor
object are omitted: the embedded operations take the predictor's behaviour
as an explicit argument. -/
structure AppState where
  market : MarketData := {}
  account : AccountData := {}
  settings : TradeSettings := {}
  is_connected : Bool := false
  pending_commands : List Cmd := []
  positions : List PositionData := []
  last_trade_time : ℚ := 0
  sent_closures : List (CloseKey × ℚ) := []
  available_symbols : List String := []
  day_start_balance : ℚ := 0
  daily_loss_limit_hit : Bool := false
  last_strategy_eval : ℚ := 0
  deriving Repr, DecidableEq

/-- The instance attributes `AppState.__init__` assigns (`src/state.py`,
lines 12-33).  `pending_command` (singular) is *not* among them; only
`pending_commands` is. -/
def appStateAttrNames : List String :=
  [ "market", "account", "settings", "server_config", "is_connected",
    "last_heartbeat", "pending_commands", "positions", "last_trade_time",
    "sent_closures", "available_symbols", "day_start_balance",
    "daily_loss_limit_hit", "last_strategy_eval", "strategy", "predictor" ]

/-- Does an `AppState` instance carry attribute `n`? -/
def appStateHasAttr (n : String) : Bool := appStateAttrNames.contains n

/-- The payload of a trade-command event, i.e. the `cmd_data` dict passed to
`AppState._on_trade_command`; absent dict keys are `none` (`dict.get`
returns `None`). -/
structure CmdData where
  action : String
  symbol : Option String := none
  ticket : Option ℤ := none
  lot : Option ℚ := none
  sl : Option ℚ := none
  tp : Option ℚ := none
  tf : Option String := none
  bars : Option String := none
  deriving Repr, DecidableEq

/-- Python truthiness chain `a or b` for an optional string `a` (both `None`
and `""` are falsy) against a fallible fallback `b`. -/
def pyOrStr (a : Option String) (b : Except PyErr String) : Except PyErr String :=
  match a with
  | some v => if v = "" then b else .ok v
  | none => b

/-- `f"{ticket}"` for `cmd_data.get('ticket', '')`. -/
def ticketStr (t : Option ℤ) : String :=
  match t with
  | some n => toString n
  | none => ""

/-- Line 163 of `src/state.py`:
`symbol = cmd_data.get("symbol") or self.settings.symbol or self.market.symbol`.
The second disjunct reads the non-existent `TradeSettings.symbol`, so the
chain raises whenever the command itself carries no (non-empty) symbol. -/
def resolveSymbol (s : AppState) (c : CmdData) : Except PyErr String :=
  pyOrStr c.symbol
    (match settingsGetSymbol s.settings with
     | .error e => .error e
     | .ok v => pyOrStr (some v) (.ok s.market.symbol))

/-- `AppState._on_trade_command` (`src/state.py`, lines 161-191).  On
`.error`, the exception propagated out of the handler before any state
mutation (the raise happens at the line-163 symbol resolution). -/
def on_trade_command (s : AppState) (c : CmdData) (now : ℚ) :
    Except PyErr AppState :=
  match resolveSymbol s c with
  | .error e => .error e
  | .ok symbol =>
    if c.action = "DATA_SYNC" then
      .ok { s with pending_commands := s.pending_commands ++
              [Cmd.dataSync symbol (c.tf.getD "H1") (c.bars.getD "5000")] }
    else if c.action = "CLOSE_TICKET" then
      .ok { s with pending_commands := s.pending_commands ++
              [Cmd.closeTicket c.ticket] }
    else if c.action = "MODIFY_TICKET" then
      .ok { s with pending_commands := s.pending_commands ++
              [Cmd.modifyTicket c.ticket c.sl c.tp] }
    else
      let lot := c.lot.getD s.settings.lot
      let sl := c.sl.getD s.settings.sl
      let tp := c.tp.getD s.settings.tp
      if c.action.startsWith "CLOSE" then
        let key := CloseKey.strKey (c.action ++ "_" ++ ticketStr c.ticket)
        let proceed : Except PyErr AppState :=
          .ok { s with
                sent_closures := insertClosure s.sent_closures key now,
                pending_commands := s.pending_commands ++
                  [Cmd.order c.action symbol lot sl tp] }
        match lookupClosure s.sent_closures key with
        | some t => if now - t < 1 then .ok s else proceed
        | none => proceed
      else
        .ok { s with pending_commands := s.pending_commands ++
                [Cmd.order c.action symbol lot sl tp] }

/-- The response/drain step of `MT5Handler.do_POST` (`src/server.py`, lines
49-58): it evaluates `state.pending_command if state.pending_command else "OK"`.
`AppState` defines no `pending_command` attribute (its queue is
`pending_commands`), so the lookup raises before any command is drained; on
success it would have returned the response text and the updated state. -/
def doPostDrain (s : AppState) : Except PyErr (String × AppState) :=
  if appStateHasAttr "pending_command" then
    .ok ("OK", s)
  else
    .error (.attrError "AppState" "pending_command")

/-! ## `src/strategies/simple_strategy.py` and `src/patterns/base.py` -/

/-- The view of the predictor object that `SimpleStrategy.run` and
`detect_pattern` use: the rolling price history plus the cached indicator
attributes. -/
structure PredView where
  history : List ℚ := []
  last_rsi : ℚ := 50
  last_stoch_k : ℚ := 50
  last_stoch_d : ℚ := 50
  deriving Repr, DecidableEq

/-- The `state` dict that `AppState.evaluate_strategy` passes to
`self.strategy.run` (`src/state.py`, lines 231-243).  Every key the strategy
reads is present in that dict, so the `state.get` defaults in the strategy
are modelled as the provided values. -/
structure RunInput where
  current_symbol : String := ""
  current_bid : ℚ := 0
  current_ask : ℚ := 0
  market_is_open : Bool := false
  predictor : Option PredView := none
  buy_threshold : ℚ := 0.75
  sell_threshold : ℚ := 0.75
  ai_prediction : ℚ := 0
  ai_confidence : ℚ := 0
  rsi : ℚ := 0
  sma10 : ℚ := 0
  deriving Repr, DecidableEq

/-- Python `pat in s` for strings (substring containment). -/
def strContains (s pat : String) : Bool := (s.splitOn pat).length != 1

/-- `pandas.Series.ewm(span=20, adjust=False).mean().iloc[-1]`: the
exponential moving average `y0 = x0`, `y_t = y_(t-1) + α (x_t - y_(t-1))`
with `α = 2/21`, of the whole series. -/
def ema20 (prices : List ℚ) : ℚ :=
  match prices with
  | [] => 0
  | p :: rest => rest.foldl (fun a x => a + (2 / 21) * (x - a)) p

/-- `detect_pattern` (`src/patterns/base.py`).  `rsi`, `current_price` and
`sma10` come from the state dict; when the predictor holds at least 20
history entries the EMA(20) of that history replaces the `sma10` fallback.
(The momentum value `mom` computed alongside is never used afterwards in the
source and is therefore not carried here.) -/
def detect_pattern (rsi current_price sma10 : ℚ) (pred : Option PredView) :
    String :=
  let ema20v :=
    match pred with
    | some p => if p.history.length ≥ 20 then ema20 p.history else sma10
    | none => sma10
  if rsi < 20 then "oversold"
  else if rsi > 80 then "overbought"
  else if current_price > sma10 ∧ current_price > ema20v ∧ rsi > 60 then
    "strong_bullish"
  else if current_price < sma10 ∧ current_price < ema20v ∧ rsi < 40 then
    "strong_bearish"
  else if rsi > 52 ∧ current_price > sma10 then "bullish"
  else if rsi < 48 ∧ current_price < sma10 then "bearish"
  else "neutral"

/-- The bullish keyword list of `SimpleStrategy.run`. -/
def bullish_keywords : List String :=
  [ "surge", "rally", "high", "growth", "positive", "uptrend", "bullish",
    "jump", "buy", "gain", "breakout" ]

/-- The bearish keyword list of `SimpleStrategy.run`. -/
def bearish_keywords : List String :=
  [ "crash", "drop", "plunge", "crisis", "negative", "low", "dip", "bearish",
    "fall", "sell", "loss", "breakdown" ]

/-- The news sentiment score of `SimpleStrategy.run`: +1 per headline
containing a bullish keyword, −1 per headline containing a bearish keyword
(a headline matching both contributes 0). -/
def newsSentiment (headlines : List String) : ℤ :=
  headlines.foldl
    (fun acc h =>
      let hl := h.toLower
      let acc := if bullish_keywords.any (fun k => strContains hl k)
                 then acc + 1 else acc
      if bearish_keywords.any (fun k => strContains hl k)
      then acc - 1 else acc)
    0

/-- The trade direction of `SimpleStrategy.run`:
`"UP" if price_delta > 0 else "DOWN"` with
`price_delta = ai_prediction - current_ask`. -/
def runDirection (st : RunInput) : String :=
  if st.ai_prediction - st.current_ask > 0 then "UP" else "DOWN"

/-- The chart pattern `SimpleStrategy.run` obtains from `detect_pattern`. -/
def runPattern (st : RunInput) : String :=
  detect_pattern st.rsi st.current_ask st.sma10 st.predictor

/-- The fused confidence `final_conf` of `SimpleStrategy.run`
(`src/strategies/simple_strategy.py`, lines 42-91): the base AI confidence
plus the direction-dependent pattern, stochastic and news boosts, with no
clamp. -/
def fusionConfidence (st : RunInput) (headlines : List String) : ℚ :=
  let base_conf := st.ai_confidence
  let direction := runDirection st
  let pattern := runPattern st
  let stoch_k :=
    match st.predictor with
    | some p => p.last_stoch_k
    | none => 50
  let final_conf := base_conf
  let final_conf :=
    if direction = "UP" then
      if pattern = "strong_bullish" then final_conf + 40
      else if pattern = "bullish" then final_conf + 20
      else if pattern = "oversold" then final_conf + 15
      else final_conf
    else if direction = "DOWN" then
      if pattern = "strong_bearish" then final_conf + 40
      else if pattern = "bearish" then final_conf + 20
      else if pattern = "overbought" then final_conf + 15
      else final_conf
    else final_conf
  let final_conf :=
    if direction = "UP" then
      if stoch_k < 20 then final_conf + 15
      else if stoch_k < 50 then final_conf + 5
      else final_conf
    else if direction = "DOWN" then
      if stoch_k > 80 then final_conf + 15
      else if stoch_k > 50 then final_conf + 5
      else final_conf
    else final_conf
  let sentiment := newsSentiment headlines
  let final_conf :=
    if direction = "UP" ∧ sentiment > 0 then final_conf + 15 else final_conf
  if direction = "DOWN" ∧ sentiment < 0 then final_conf + 15 else final_conf

/-- `SimpleStrategy.run` (`src/strategies/simple_strategy.py`): the final
signal computed from the fused confidence, the UI thresholds scaled by 100,
and the pattern safety filters. -/
def simpleStrategyRun (st : RunInput) (headlines : List String) : String :=
  let buy_threshold := st.buy_threshold * 100
  let sell_threshold := st.sell_threshold * 100
  let direction := runDirection st
  let pattern := runPattern st
  let final_conf := fusionConfidence st headlines
  if direction = "UP" then
    if (pattern = "bearish" ∨ pattern = "strong_bearish" ∨
        pattern = "overbought") ∧ final_conf < 85 then "HOLD"
    else if final_conf ≥ buy_threshold then "BUY"
    else "HOLD"
  else if direction = "DOWN" then
    if (pattern = "bullish" ∨ pattern = "strong_bullish" ∨
        pattern = "oversold") ∧ final_conf < 85 then "HOLD"
    else if final_conf ≥ sell_threshold then "SELL"
    else "HOLD"
  else "HOLD"

/-! ## `src/ai/predictor.py` -/

/-- The outputs of the predictor's model branch: the predicted return and the
indicator values it caches on the instance. -/
structure ModelOut where
  pred_return : ℚ := 0
  rsi : ℚ := 50
  stoch_k : ℚ := 50
  stoch_d : ℚ := 50
  sma10 : ℚ := 0
  sma200 : ℚ := 0
  atr : ℚ := 0
  deriving Repr, DecidableEq

/-- `SimplePredictor` (`src/ai/predictor.py`).  `modelLoaded` is whether
`_load_model` found `models/price_predictor.pkl`; `modelEval` abstracts the
try-branch of `predict_price` (the pandas feature pipeline applied to the
history plus the pickled scikit-learn model, an artefact that is not part of
the source tree). -/
structure Predictor where
  modelLoaded : Bool := false
  modelEval : List ℚ → ℚ → String → ModelOut := fun _ _ _ => {}
  history : List ℚ := []
  last_rsi : ℚ := 50
  last_stoch_k : ℚ := 50
  last_stoch_d : ℚ := 50
  last_sma10 : ℚ := 0
  last_sma200 : ℚ := 0
  last_atr : ℚ := 0

/-- The history update at the top of `predict_price` (`src/ai/predictor.py`,
lines 53-56): append the current ask, then drop the oldest entry once the
buffer exceeds 300. -/
def historyUpdate (history : List ℚ) (ask : ℚ) : List ℚ :=
  let h := history ++ [ask]
  if h.length > 300 then h.drop 1 else h

/-- `SimplePredictor.predict_price` (`src/ai/predictor.py`, lines 47-166).
Every call first appends the current ask to `self.history` (a mutation of
the predictor instance).  With a loaded model and at least 14 history
entries the (abstracted) feature/model pipeline runs and its indicator
outputs are cached on the instance; otherwise the function returns
`ask + np.random.normal(0, 0.05)` — the Gaussian sample is the explicit
`randWander` argument here. -/
def predict_price (p : Predictor) (ask : ℚ) (symbol : String)
    (randWander : ℚ) : Predictor × ℚ :=
  let h := historyUpdate p.history ask
  let p := { p with history := h }
  if p.modelLoaded ∧ h.length ≥ 14 then
    let out := p.modelEval h ask symbol
    ({ p with last_rsi := out.rsi, last_stoch_k := out.stoch_k,
              last_stoch_d := out.stoch_d, last_sma10 := out.sma10,
              last_sma200 := out.sma200, last_atr := out.atr },
     ask * (1 + out.pred_return))
  else
    (p, ask + randWander)

/-! ## `AppState.evaluate_strategy` (`src/state.py`, lines 193-346)

The predictor object's observable behaviour during one evaluation is passed
as an `EvalDeps` value: the price returned by `predict_price` plus the
`last_*` attributes and the history after that call (`AppState.evaluate_strategy`
only consumes the predictor through these). `deps = none` models
`self.predictor is None`. -/

/-- Observable behaviour of `self.predictor` during one `evaluate_strategy`
call. -/
structure EvalDeps where
  predOut : ℚ := 0
  last_rsi : ℚ := 50
  last_stoch_k : ℚ := 50
  last_stoch_d : ℚ := 50
  last_sma10 : ℚ := 0
  last_sma200 : ℚ := 0
  last_atr : ℚ := 0
  history : List ℚ := []
  deriving Repr, DecidableEq

/-- `src/state.py`, lines 219-220:
`target_move_pct = float(self.settings.buy_threshold or 0.75) / 1000.0`
followed by `if target_move_pct == 0: target_move_pct = 0.0001`.
Python `or` replaces a falsy (zero) threshold by `0.75` *before* the
division, so the `== 0` re-floor can only fire if the quotient itself is
exactly zero. -/
def target_move_pct (buy_threshold : ℚ) : ℚ :=
  let t := (if buy_threshold = 0 then 0.75 else buy_threshold) / 1000
  if t = 0 then 0.0001 else t

/-- `src/state.py`, lines 222-226: the raw confidence from the predicted
percentage change, capped at 120 (`min(raw_conf, 120.0)`). -/
def predictionConfidence (ask pred buy_threshold : ℚ) : ℚ :=
  let predicted_change_pct := (pred - ask) / ask
  let raw_conf := |predicted_change_pct| / target_move_pct buy_threshold * 100
  min raw_conf 120

/-- Step 1 of `evaluate_strategy` (`src/state.py`, lines 196-228): with a
predictor, store the prediction and the indicator attributes on
`self.market` (attaching the dynamic `atr` and `sma200` attributes) and set
`market.confidence` from the percentage-change formula (or `0` when the ask
is not positive). -/
def evalStep1Market (m : MarketData) (buy_threshold : ℚ)
    (deps : Option EvalDeps) : MarketData :=
  match deps with
  | none => m
  | some d =>
    let m := { m with prediction := d.predOut, rsi := d.last_rsi,
                      sma10 := d.last_sma10, sma200 := some d.last_sma200,
                      atr := some d.last_atr }
    if m.ask > (0 : ℚ) then
      { m with confidence := predictionConfidence m.ask d.predOut buy_threshold }
    else
      { m with confidence := 0 }

/-- The `state_dict` built at lines 231-243 of `src/state.py` and handed to
`SimpleStrategy.run` (before the visual cap of line 248). -/
def evalRunInput (s : AppState) (deps : Option EvalDeps) : RunInput :=
  let m := evalStep1Market s.market s.settings.buy_threshold deps
  { current_symbol := m.symbol
    current_bid := m.bid
    current_ask := m.ask
    market_is_open := m.is_open
    predictor := deps.map (fun d =>
      { history := d.history, last_rsi := d.last_rsi,
        last_stoch_k := d.last_stoch_k, last_stoch_d := d.last_stoch_d })
    buy_threshold := s.settings.buy_threshold
    sell_threshold := s.settings.sell_threshold
    ai_prediction := m.prediction
    ai_confidence := m.confidence
    rsi := m.rsi
    sma10 := m.sma10 }

/-- The decision string returned by `self.strategy.run(state_dict)`. -/
def evalDecision (s : AppState) (deps : Option EvalDeps)
    (headlines : List String) : String :=
  simpleStrategyRun (evalRunInput s deps) headlines

/-- `self.market` after the visual cap of line 248
(`self.market.confidence = min(self.market.confidence, 100.0)`). -/
def evalMarketCapped (s : AppState) (deps : Option EvalDeps) : MarketData :=
  let m := evalStep1Market s.market s.settings.buy_threshold deps
  { m with confidence := min m.confidence 100 }

/-- The confidence value that the risk filters of `evaluate_strategy` read:
`self.market.confidence` as it stands at lines 259 and 266, i.e. after the
line-248 display cap. -/
def evalFilterConfidence (s : AppState) (deps : Option EvalDeps) : ℚ :=
  (evalMarketCapped s deps).confidence

/-- The signal-reversal sweep of lines 266-270: with `self.market.confidence
≥ 90`, queue a `CLOSE_TICKET` for every open position opposite to the
decision.  A raise inside `_on_trade_command` aborts the sweep (the
exception carries the state reached so far). -/
def reversalClose (s : AppState) (decision : String) (now : ℚ) :
    List PositionData → Except (AppState × PyErr) AppState
  | [] => .ok s
  | pos :: rest =>
    if (decision = "BUY" ∧ ptypeIs pos.type 1 = true) ∨
       (decision = "SELL" ∧ ptypeIs pos.type 0 = true) then
      match on_trade_command s { action := "CLOSE_TICKET",
                                 ticket := some pos.ticket } now with
      | .ok s' => reversalClose s' decision now rest
      | .error e => .error (s, e)
    else
      reversalClose s decision now rest

/-- The execution part of `evaluate_strategy` for a BUY/SELL decision that
passed the daily-loss filter (`src/state.py`, lines 258-343).  A `.error`
result is the exception that the `except` clause at line 345 will catch,
paired with the state as mutated up to the raise. -/
def evalExecute (s : AppState) (decision : String) (now : ℚ) :
    Except (AppState × PyErr) AppState :=
  -- Filter 1: confidence floor; `config.MIN_CONFIDENCE_FOR_TRADE` is
  -- undefined, so this lookup raises on every run that reaches it.
  match configGetNum "MIN_CONFIDENCE_FOR_TRADE" with
  | .error e => .error (s, e)
  | .ok minConf =>
    if s.market.confidence < minConf then .ok s
    else
      let afterReversal :=
        if s.market.confidence ≥ 90 then
          reversalClose s decision now s.positions
        else .ok s
      match afterReversal with
      | .error e => .error e
      | .ok s =>
        -- Filter 2: spread vs ATR (line 273 reads the dynamic attribute).
        match marketGetAtr s.market with
        | .error e => .error (s, e)
        | .ok atr =>
          if atr > 0 ∧ s.market.ask - s.market.bid > atr * 1.5 then .ok s
          else if s.account.position_count ≥ s.settings.max_positions then
            .ok s
          else
            -- Filter 4: trend filter (line 289 reads the dynamic sma200).
            match marketGetSma200 s.market with
            | .error e => .error (s, e)
            | .ok sma200 =>
              if sma200 > 0 ∧ decision = "BUY" ∧ s.market.ask < sma200 then
                .ok s
              else if sma200 > 0 ∧ decision = "SELL" ∧ s.market.ask > sma200
              then .ok s
              else if now - s.last_trade_time < 30 then .ok s
              else
                let conf_normalized :=
                  (s.market.confidence - minConf) / (100 - minConf)
                match configGetNum "TP_MIN_MULT" with
                | .error e => .error (s, e)
                | .ok tpMin =>
                  match configGetNum "TP_MAX_MULT" with
                  | .error e => .error (s, e)
                  | .ok tpMax =>
                    let reward_mult := tpMin + conf_normalized * (tpMax - tpMin)
                    let reward_mult := max tpMin (min tpMax reward_mult)
                    let sl_dist := atr * 1
                    let tp_dist := atr * reward_mult
                    let sl := if decision = "BUY" then s.market.ask - sl_dist
                              else s.market.ask + sl_dist
                    let tp := if decision = "BUY" then s.market.ask + tp_dist
                              else s.market.ask - tp_dist
                    -- Filter 5: position sizing reads the non-existent
                    -- `settings.auto_lot` (line 321).
                    match settingsGetAutoLot s.settings with
                    | .error e => .error (s, e)
                    | .ok autoLot =>
                      let lotRes :=
                        if autoLot then
                          match configGetNum "RISK_PER_TRADE" with
                          | .error e => Except.error e
                          | .ok rpt =>
                            let risk_amount := s.account.balance * rpt
                            if risk_amount > 0 ∧ sl_dist > 0 then
                              let scale : ℚ :=
                                if strContains s.market.symbol "XAU" then 100
                                else 1
                              let calculated_lot := risk_amount / (sl_dist * scale)
                              match configGetNum "MIN_LOT_SIZE" with
                              | .error e => Except.error e
                              | .ok minLot =>
                                match configGetNum "MAX_LOT_SIZE" with
                                | .error e => Except.error e
                                | .ok maxLot =>
                                  Except.ok (max minLot (min maxLot calculated_lot))
                            else Except.ok s.settings.lot
                        else Except.ok s.settings.lot
                      match lotRes with
                      | .error e => .error (s, e)
                      | .ok lot =>
                        let s := { s with last_trade_time := now }
                        -- `events.emit(EventType.TRADE_COMMAND, {...})`,
                        -- which `__init__` (line 40) routes to
                        -- `_on_trade_command`.
                        match on_trade_command s
                            { action := decision,
                              symbol := some s.market.symbol,
                              lot := some lot, sl := some sl,
                              tp := some tp } now with
                        | .ok s' => .ok s'
                        | .error e => .error (s, e)

/-- `AppState.evaluate_strategy` (`src/state.py`, lines 193-346).  Returns
the state after the call together with the exception caught and logged by
the `except` clause at line 345 (`none` when no exception was raised).  All
queued commands live in `pending_commands` of the returned state. -/
def evaluate_strategy (s : AppState) (deps : Option EvalDeps)
    (headlines : List String) (now : ℚ) : AppState × Option PyErr :=
  let decision := evalDecision s deps headlines
  let s := { s with market := evalMarketCapped s deps }
  if decision = "BUY" ∨ decision = "SELL" then
    -- Filter 0: daily loss limit.
    if s.daily_loss_limit_hit then (s, none)
    else
      match evalExecute s decision now with
      | .ok s' => (s', none)
      | .error (s', e) => (s', some e)
  else (s, none)

/-! ## `AppState._on_positions_update` (`src/state.py`, lines 47-102) -/

/-- The break-even / trailing / close processing of one position in the
`_on_positions_update` loop.  `.error` is an uncaught exception together
with the state reached up to the raise (the exception aborts the whole
sweep). -/
def posStep (s : AppState) (pos : PositionData) (now : ℚ) :
    Except (AppState × PyErr) AppState :=
  -- 0. Aggressive Break-Even & Trailing SL (lines 59-86).  Python's `and`
  -- short-circuits: `self.market.atr` is only read when `pos.profit > 0`.
  let step0 : Except (AppState × PyErr) AppState :=
    if pos.profit > 0 then
      match marketGetAtr s.market with
      | .error e => .error (s, e)
      | .ok atr =>
        if atr > 0 then
          let _current_price :=
            if ptypeIs pos.type 0 then s.market.bid else s.market.ask
          let scale : ℚ := if strContains s.market.symbol "XAU" then 100 else 1
          let profit_in_atr := pos.profit / (atr * scale)
          -- Logic 1 (line 65) reads `config.BREAK_EVEN_TRIGGER`, which
          -- `config.py` does not define: the lookup raises here.
          match configGetNum "BREAK_EVEN_TRIGGER" with
          | .error e => .error (s, e)
          | .ok trigger =>
            let afterBE : Except (AppState × PyErr) AppState :=
              if profit_in_atr ≥ trigger then
                let buffer : ℚ :=
                  if strContains s.market.symbol "XAU" then 0.1 else 0.0001
                if ptypeIs pos.type 0 then
                  if pos.sl < pos.price_open then
                    match on_trade_command s
                        { action := "MODIFY_TICKET", ticket := some pos.ticket,
                          sl := some (pos.price_open + buffer),
                          tp := some pos.tp } now with
                    | .ok s' => .ok s'
                    | .error e => .error (s, e)
                  else .ok s
                else
                  if pos.sl = 0 ∨ pos.sl > pos.price_open then
                    match on_trade_command s
                        { action := "MODIFY_TICKET", ticket := some pos.ticket,
                          sl := some (pos.price_open - buffer),
                          tp := some pos.tp } now with
                    | .ok s' => .ok s'
                    | .error e => .error (s, e)
                  else .ok s
              else .ok s
            match afterBE with
            | .error e => .error e
            | .ok s =>
              -- Logic 2 (line 78) reads `config.TRAILING_STOP_MULT`.
              match configGetNum "TRAILING_STOP_MULT" with
              | .error e => .error (s, e)
              | .ok tsm =>
                if profit_in_atr ≥ tsm then
                  let current_price :=
                    if ptypeIs pos.type 0 then s.market.bid else s.market.ask
                  if ptypeIs pos.type 0 then
                    let new_sl := current_price - atr * tsm
                    if new_sl > pos.sl + atr * 0.1 then
                      match on_trade_command s
                          { action := "MODIFY_TICKET",
                            ticket := some pos.ticket,
                            sl := some new_sl, tp := some pos.tp } now with
                      | .ok s' => .ok s'
                      | .error e => .error (s, e)
                    else .ok s
                  else
                    let new_sl := current_price + atr * tsm
                    if pos.sl = 0 ∨ new_sl < pos.sl - atr * 0.1 then
                      match on_trade_command s
                          { action := "MODIFY_TICKET",
                            ticket := some pos.ticket,
                            sl := some new_sl, tp := some pos.tp } now with
                      | .ok s' => .ok s'
                      | .error e => .error (s, e)
                    else .ok s
                else .ok s
        else .ok s
    else .ok s
  match step0 with
  | .error e => .error e
  | .ok s =>
    -- 1. Profit Target (lines 89-94) / 2. Loss Target (lines 97-102).
    let closeProceed : Except (AppState × PyErr) AppState :=
      let s := { s with
        sent_closures := insertClosure s.sent_closures (.intKey pos.ticket) now }
      match on_trade_command s
          { action := "CLOSE_TICKET", ticket := some pos.ticket } now with
      | .ok s' => .ok s'
      | .error e => .error (s, e)
    if s.settings.pos_profit_limit > 0 ∧ pos.profit ≥ s.settings.pos_profit_limit
    then
      match lookupClosure s.sent_closures (.intKey pos.ticket) with
      | some t => if now - t < 2 then .ok s else closeProceed
      | none => closeProceed
    else if s.settings.pos_loss_limit > 0 ∧
            pos.profit ≤ -s.settings.pos_loss_limit then
      match lookupClosure s.sent_closures (.intKey pos.ticket) with
      | some t => if now - t < 2 then .ok s else closeProceed
      | none => closeProceed
    else .ok s

/-- The `for pos in data` loop of `_on_positions_update`; an exception
aborts the remaining iterations and propagates. -/
def posSweep (s : AppState) (ps : List PositionData) (now : ℚ) :
    AppState × Option PyErr :=
  match ps with
  | [] => (s, none)
  | pos :: rest =>
    match posStep s pos now with
    | .ok s' => posSweep s' rest now
    | .error (s', e) => (s', some e)

/-- `AppState._on_positions_update` (`src/state.py`, lines 47-102).  The
returned `Option PyErr` is the exception propagated out of the handler (to
be caught by `EventManager.emit`).  The whole per-position sweep only runs
when at least one per-position limit is configured (line 51), and is skipped
entirely while the market is closed (lines 52-54). -/
def on_positions_update (s : AppState) (data : List PositionData) (now : ℚ) :
    AppState × Option PyErr :=
  let s := { s with positions := data }
  if s.settings.pos_profit_limit > 0 ∨ s.settings.pos_loss_limit > 0 then
    if s.market.is_open = false then (s, none)
    else posSweep s data now
  else (s, none)

/-! ## `AppState._on_account_update` (`src/state.py`, lines 117-138) -/

/-- `AppState._on_account_update`.  The returned `Option PyErr` is the
exception propagated out of the handler.  The daily-drawdown check at line
123 reads `config.MAX_DAILY_LOSS`, which `config.py` does not define, so the
handler raises there on every call — after possibly initialising
`day_start_balance`, but before `daily_loss_limit_hit` could ever be set and
before `self.account` is refreshed. -/
def on_account_update (s : AppState) (d : AccountData) (now : ℚ) :
    AppState × Option PyErr :=
  let s := if s.day_start_balance = 0
           then { s with day_start_balance := d.balance } else s
  let total_loss := s.day_start_balance - d.equity
  match configGetNum "MAX_DAILY_LOSS" with
  | .error e => (s, some e)
  | .ok maxDailyLoss =>
    let s := if total_loss > s.day_start_balance * maxDailyLoss then
               { s with daily_loss_limit_hit := true }
             else s
    let s := { s with account := d }
    if s.settings.auto_profit_close > 0 ∧
       d.profit ≥ s.settings.auto_profit_close then
      if s.market.is_open = false then (s, none)
      else
        let proceed : AppState × Option PyErr :=
          let s := { s with
            sent_closures := insertClosure s.sent_closures (.strKey "CLOSE_ALL") now }
          match on_trade_command s { action := "CLOSE_ALL" } now with
          | .ok s' => (s', none)
          | .error e => (s, some e)
        match lookupClosure s.sent_closures (.strKey "CLOSE_ALL") with
        | some t => if now - t < 2 then (s, none) else proceed
        | none => proceed
    else (s, none)

/-! ## Concrete scenarios used by the claim theorems -/

/-- The nine risk/strategy constants that `src/state.py` reads from the
`config` module. -/
def missingRiskConfigNames : List String :=
  [ "MIN_CONFIDENCE_FOR_TRADE", "TP_MIN_MULT", "TP_MAX_MULT",
    "RISK_PER_TRADE", "MIN_LOT_SIZE", "MAX_LOT_SIZE", "BREAK_EVEN_TRIGGER",
    "TRAILING_STOP_MULT", "MAX_DAILY_LOSS" ]

/-- A state whose strategy evaluation yields a BUY decision with the
daily-loss filter passed: prediction above the ask, confidence 80 against
the default 0.75 threshold, neutral pattern, no predictor object. -/
def buyDecisionState : AppState :=
  { market := { symbol := "XAUUSDm", ask := 100, bid := 99.9, is_open := true,
                prediction := 105, confidence := 80, rsi := 50, sma10 := 0 } }

/-- The `state_dict` that `buyDecisionState` hands to the strategy (used to
stage the evaluation in proofs; `evalRunInput buyDecisionState none` reduces
to it definitionally). -/
def buyRI : RunInput :=
  { current_symbol := "XAUUSDm", current_bid := 99.9, current_ask := 100,
    market_is_open := true, predictor := none, buy_threshold := 0.75,
    sell_threshold := 0.75, ai_prediction := 105, ai_confidence := 80,
    rsi := 50, sma10 := 0 }

/-- Market state for the confidence-clamping scenario. -/
def clampState : AppState :=
  { market := { symbol := "XAUUSDm", ask := 100, bid := 99.9, is_open := true } }

/-- Predictor behaviour for the confidence-clamping scenario: the predicted
price gives raw confidence 120 (capped), and the indicators produce a
`strong_bullish` pattern (+40) and an oversold stochastic (+15). -/
def clampDeps : EvalDeps :=
  { predOut := 101, last_rsi := 70, last_sma10 := 90, last_stoch_k := 10 }

/-- A position holding a profit of 1.5 ATR units (300 over an ATR of 2 at
the gold scale 100), i.e. well past any plausible break-even trigger. -/
def bigProfitPos : PositionData :=
  { ticket := 7, profit := 300, type := .strVal "" }

/-- Open gold market with the dynamic `atr` attribute set to 2 and *no*
per-position profit/loss limit configured. -/
def noLimitsState : AppState :=
  { market := { symbol := "XAUUSDm", ask := 2000.5, bid := 2000,
                is_open := true, atr := some 2 } }

/-- The same market with a per-position profit limit of 10 configured. -/
def withLimitState : AppState :=
  { noLimitsState with settings := { pos_profit_limit := 10 } }

/-- The specification scenario for the close dedupe: one ticket with
`profit = 12` against `pos_profit_limit = 10`; the market is open and the
dynamic `atr` attribute is present with value 0 (so the break-even block is
skipped). -/
def dedupeState : AppState :=
  { market := { symbol := "XAUUSDm", ask := 2000.5, bid := 2000,
                is_open := true, atr := some 0 },
    settings := { pos_profit_limit := 10 } }

/-- The ticket crossing the profit limit in the dedupe scenario. -/
def dedupePos : PositionData := { ticket := 1, profit := 12 }

/-- The state after the first dedupe-scenario snapshot: the ticket is
recorded in `sent_closures` but nothing was queued. -/
def dedupeStateAfter : AppState :=
  { dedupeState with positions := [dedupePos], sent_closures := [(.intKey 1, 100)] }

/-- A fresh predictor with no trained model (`models/price_predictor.pkl`
absent) and an empty rolling history. -/
def freshPredictor : Predictor := { modelLoaded := false }

/-! ## Helper lemmas -/

/-- Filter 1 of the execution path always raises: reading
`config.MIN_CONFIDENCE_FOR_TRADE` fails before any comparison, reversal
close or order can happen. -/
theorem evalExecute_raises_min_conf (s : AppState) (decision : String)
    (now : ℚ) :
    evalExecute s decision now =
      .error (s, .attrError "config" "MIN_CONFIDENCE_FOR_TRADE") := by
  unfold evalExecute
  rfl

/-- Reading `config.MAX_DAILY_LOSS` raises. -/
theorem configGetNum_max_daily_loss :
    configGetNum "MAX_DAILY_LOSS" =
      .error (.attrError "config" "MAX_DAILY_LOSS") := by
  rfl

/-! ## Claim theorems -/

/-- C1: the claim says every queued command is drained exactly once by an
inbound poll.  In fact the transport's drain step in `MT5Handler.do_POST`
reads `state.pending_command`, an attribute `AppState.__init__` never
assigns (the queue is `pending_commands`), so every poll raises
`AttributeError` at the response step and no queued command is ever removed:
the code contradicts the stated contract. -/
theorem transport_never_drains_pending_commands :
    (∀ s : AppState,
      doPostDrain s = .error (.attrError "AppState" "pending_command")) ∧
    appStateHasAttr "pending_command" = false ∧
    appStateHasAttr "pending_commands" = true := by
  refine ⟨fun s => rfl, by decide, by decide⟩

/-- C2: constructing `AppState` always fails.  `EventType` defines neither
`POSITIONS_UPDATE` nor `SYMBOLS_AVAILABLE`, the subscription sequence of
`AppState.__init__` raises at its third lookup, and the server's
position-snapshot dispatch evaluates the same missing member. -/
theorem appstate_init_fails_on_missing_event_types :
    appStateInit = .error (.attrError "EventType" "POSITIONS_UPDATE") ∧
    eventTypeMembers.contains "POSITIONS_UPDATE" = false ∧
    eventTypeMembers.contains "SYMBOLS_AVAILABLE" = false ∧
    serverPositionsEmitLookup =
      .error (.attrError "EventType" "POSITIONS_UPDATE") := by
  exact ⟨rfl, rfl, rfl, rfl⟩

/-- C3: the config module defines none of the nine risk constants, and every
evaluation that reaches a BUY/SELL decision past the daily-loss filter dies
with `AttributeError` at the confidence-floor comparison; the exception is
swallowed by `evaluate_strategy`'s own handler and no command is queued. -/
theorem auto_path_swallowed_by_missing_confidence_floor :
    (∀ n ∈ missingRiskConfigNames, configHasAttr n = false) ∧
    ∀ (s : AppState) (deps : Option EvalDeps) (headlines : List String)
      (now : ℚ),
      (evalDecision s deps headlines = "BUY" ∨
       evalDecision s deps headlines = "SELL") →
      s.daily_loss_limit_hit = false →
      (evaluate_strategy s deps headlines now).2 =
        some (.attrError "config" "MIN_CONFIDENCE_FOR_TRADE") ∧
      (evaluate_strategy s deps headlines now).1.pending_commands =
        s.pending_commands := by
  constructor
  · decide
  · intro s deps headlines now hdec hflag
    have h1 : evaluate_strategy s deps headlines now =
        ({ s with market := evalMarketCapped s deps },
         some (.attrError "config" "MIN_CONFIDENCE_FOR_TRADE")) := by
      unfold evaluate_strategy
      rcases hdec with h | h <;>
        simp [h, hflag, evalExecute_raises_min_conf]
    rw [h1]
    exact ⟨rfl, rfl⟩

/-- Witness for C3: in `buyDecisionState` the strategy returns BUY, the
daily-loss flag is down, and the evaluation swallows the
`MIN_CONFIDENCE_FOR_TRADE` AttributeError with nothing queued. -/
theorem auto_path_swallowed_witness :
    (evaluate_strategy buyDecisionState none [] 1000).2 =
      some (.attrError "config" "MIN_CONFIDENCE_FOR_TRADE") ∧
    (evaluate_strategy buyDecisionState none [] 1000).1.pending_commands = [] := by
  have hdir : runDirection buyRI = "UP" := by norm_num [runDirection, buyRI]
  have hpat : runPattern buyRI = "neutral" := by
    norm_num [runPattern, detect_pattern, buyRI]
  have hfus : fusionConfidence buyRI [] = 80 := by
    rw [fusionConfidence, hdir, hpat]
    simp [newsSentiment, buyRI]
    norm_num
  have hdec : evalDecision buyDecisionState none [] = "BUY" := by
    rw [evalDecision, show evalRunInput buyDecisionState none = buyRI from rfl,
        simpleStrategyRun, hdir, hpat, hfus]
    simp [buyRI]
    norm_num
  have h := auto_path_swallowed_by_missing_confidence_floor.2
    buyDecisionState none [] 1000 (Or.inl hdec) rfl
  exact ⟨h.1, h.2⟩

/-- C4 (counterexample): in the `clampState`/`clampDeps` scenario the
strategy decides BUY with an unclamped boosted `final_conf` of 175
(raw 120 + 40 pattern + 15 stochastic), yet the value
`self.market.confidence` that the confidence-floor test (line 259) and the
≥90 reversal check (line 266) read is 100: the line-248 display clamp runs
*before* those checks and the strategy's boosts are never written back.  The
claim that the checks see the unclamped boosted `finalConfidence` is false. -/
theorem risk_gate_clamped_confidence_cex :
    evalDecision clampState (some clampDeps) [] = "BUY" ∧
    evalFilterConfidence clampState (some clampDeps) = 100 ∧
    fusionConfidence (evalRunInput clampState (some clampDeps)) [] = 175 ∧
    evalFilterConfidence clampState (some clampDeps) ≠
      fusionConfidence (evalRunInput clampState (some clampDeps)) [] := by
  have hconf : predictionConfidence 100 101 (3/4) = 120 := by
    rw [predictionConfidence, target_move_pct]
    norm_num [abs_of_nonneg]
  have hm : evalStep1Market clampState.market clampState.settings.buy_threshold
      (some clampDeps) =
      { symbol := "XAUUSDm", bid := 99.9, ask := 100, is_open := true,
        prediction := 101, confidence := 120, rsi := 70, sma10 := 90,
        atr := some 0, sma200 := some 0 } := by
    rw [show clampState.market =
          { symbol := "XAUUSDm", ask := 100, bid := 99.9, is_open := true }
        from rfl,
        show clampState.settings.buy_threshold = 3/4 from by norm_num [clampState],
        evalStep1Market]
    norm_num [clampDeps, hconf]
  have hri : evalRunInput clampState (some clampDeps) =
      { current_symbol := "XAUUSDm", current_bid := 99.9, current_ask := 100,
        market_is_open := true,
        predictor := some { history := [], last_rsi := 70, last_stoch_k := 10,
                            last_stoch_d := 50 },
        buy_threshold := 0.75, sell_threshold := 0.75, ai_prediction := 101,
        ai_confidence := 120, rsi := 70, sma10 := 90 } := by
    rw [evalRunInput, hm]
    norm_num [clampState, clampDeps]
  have hdir : runDirection (evalRunInput clampState (some clampDeps)) = "UP" := by
    rw [hri, runDirection]; norm_num
  have hpat : runPattern (evalRunInput clampState (some clampDeps)) =
      "strong_bullish" := by
    rw [hri, runPattern, detect_pattern]
    norm_num
  have hfus : fusionConfidence (evalRunInput clampState (some clampDeps)) [] =
      175 := by
    rw [fusionConfidence, hdir, hpat, hri]
    simp [newsSentiment]
    norm_num
  have hfc : evalFilterConfidence clampState (some clampDeps) = 100 := by
    rw [evalFilterConfidence, evalMarketCapped, hm]
    norm_num
  refine ⟨?_, hfc, hfus, by rw [hfc, hfus]; norm_num⟩
  rw [evalDecision, simpleStrategyRun, hdir, hpat, hfus, hri]
  simp
  norm_num

/-- C4 (amended): for every evaluation with a predictor and a positive ask,
the confidence value read by the risk-gate check sites
(`self.market.confidence` at lines 259/266) equals the boost-free raw
confidence `min(|pct|/target, ·)·100` capped at 120 and then clamped to 100
by the line-248 display cap; the boosted unclamped `final_conf` exists only
inside `SimpleStrategy.run`. -/
theorem risk_gate_reads_clamped_unboosted_confidence :
    ∀ (s : AppState) (d : EvalDeps), s.market.ask > 0 →
      evalFilterConfidence s (some d) =
        min (min (|(d.predOut - s.market.ask) / s.market.ask| /
            target_move_pct s.settings.buy_threshold * 100) 120) 100 := by
  intro s d h
  simp [evalFilterConfidence, evalMarketCapped, evalStep1Market,
        predictionConfidence, h]

/-- Witness for the amended C4 at the concrete clamp scenario. -/
theorem risk_gate_reads_clamped_witness :
    evalFilterConfidence clampState (some clampDeps) =
      min (min (|(clampDeps.predOut - clampState.market.ask) /
          clampState.market.ask| /
          target_move_pct clampState.settings.buy_threshold * 100) 120) 100 :=
  risk_gate_reads_clamped_unboosted_confidence clampState clampDeps
    (by norm_num [clampState])

/-- Helper: a list extended on the right ends in the appended element. -/
theorem getLast_append_singleton {α : Type} (l : List α) (a : α) :
    (l ++ [a]).getLast? = some a :=
  List.getLast?_concat l

/-- C5 (counterexample): `predict_price` is not side-effect-free and not
deterministic.  Starting from a fresh predictor, one call already changes
the rolling history (from `[]` to `[100]`), and two calls from the same
inputs but different draws of the `np.random.normal(0, 0.05)` wander return
different predictions. -/
theorem predictor_lookup_impure_cex :
    (predict_price freshPredictor 100 "XAUUSDm" 0).1.history ≠
      freshPredictor.history ∧
    (predict_price freshPredictor 100 "XAUUSDm" (1/10)).2 ≠
      (predict_price freshPredictor 100 "XAUUSDm" 0).2 := by
  constructor
  · simp [predict_price, historyUpdate, freshPredictor]
  · simp [predict_price, historyUpdate, freshPredictor]

/-- C5 (amended): `SimpleStrategy.run`'s fusion is a pure function of the
state dict, pattern and headlines it is given (it is `simpleStrategyRun` in
this embedding), but the predictor lookup is impure: every `predict_price`
call appends the current ask to the rolling history (trimming it to 300
entries), and when no model is loaded the returned price is the ask plus the
random wander. -/
theorem predict_price_mutates_and_random_fallback :
    ∀ (p : Predictor) (ask : ℚ) (symbol : String) (r : ℚ),
      (predict_price p ask symbol r).1.history = historyUpdate p.history ask ∧
      (historyUpdate p.history ask).getLast? = some ask ∧
      (p.modelLoaded = false → (predict_price p ask symbol r).2 = ask + r) := by
  intro p ask symbol r
  refine ⟨?_, ?_, ?_⟩
  · rw [predict_price]
    split <;> rfl
  · rw [historyUpdate]
    split
    · rename_i hlen
      have h1 : 1 ≤ p.history.length := by
        by_contra hn
        push_neg at hn
        interval_cases h : p.history.length
        simp [List.length_append, h] at hlen
      rw [List.drop_append_of_le_length h1]
      exact getLast_append_singleton _ _
    · exact getLast_append_singleton _ _
  · intro hml
    rw [predict_price]
    simp [hml]

/-- Witness for the amended C5 on the fresh predictor. -/
theorem predict_price_mutates_witness :
    (predict_price freshPredictor 100 "XAUUSDm" (1/10)).1.history =
      historyUpdate freshPredictor.history 100 ∧
    (historyUpdate freshPredictor.history 100).getLast? = some 100 ∧
    (predict_price freshPredictor 100 "XAUUSDm" (1/10)).2 = 100 + 1/10 := by
  have h := predict_price_mutates_and_random_fallback freshPredictor 100
    "XAUUSDm" (1/10)
  exact ⟨h.1, h.2.1, h.2.2 rfl⟩

/-- C6: the daily-loss stop never arms.  `_on_account_update` reads the
undefined `config.MAX_DAILY_LOSS` *before* it could set
`daily_loss_limit_hit`, so on every account snapshot the handler raises
`AttributeError`, the flag keeps its previous value (it is never set by any
event), and no close command is queued by this handler; the sticky-stop
behaviour the claim (and the spec) describe is unreachable. -/
theorem daily_loss_flag_never_set :
    ∀ (s : AppState) (d : AccountData) (now : ℚ),
      (on_account_update s d now).2 =
        some (.attrError "config" "MAX_DAILY_LOSS") ∧
      (on_account_update s d now).1.daily_loss_limit_hit =
        s.daily_loss_limit_hit ∧
      (on_account_update s d now).1.pending_commands = s.pending_commands := by
  intro s d now
  rw [on_account_update, configGetNum_max_daily_loss]
  by_cases hds : s.day_start_balance = 0 <;> simp [hds]

/-- C7: the break-even sweep never runs as claimed.  With no per-position
limit configured (`pos_profit_limit = pos_loss_limit = 0`) the entire sweep
— break-even included — is skipped by the line-51 guard even for a position
1.5 ATR in profit on an open market, so no `MODIFY_TICKET` is queued; and
with a limit configured the sweep reads the undefined
`config.BREAK_EVEN_TRIGGER` and aborts with `AttributeError` before any
break-even modify, again queueing nothing.  The claim that the sweep runs on
every snapshot regardless of the limits (moving SL to break-even) is
contradicted on both sides. -/
theorem break_even_sweep_never_runs :
    on_positions_update noLimitsState [bigProfitPos] 1000 =
      ({ noLimitsState with positions := [bigProfitPos] }, none) ∧
    (on_positions_update withLimitState [bigProfitPos] 1000).2 =
      some (.attrError "config" "BREAK_EVEN_TRIGGER") ∧
    (on_positions_update withLimitState [bigProfitPos] 1000).1.pending_commands
      = [] ∧
    configHasAttr "BREAK_EVEN_TRIGGER" = false := by
  have hbe : configGetNum "BREAK_EVEN_TRIGGER" =
      .error (.attrError "config" "BREAK_EVEN_TRIGGER") := rfl
  have h2 : on_positions_update withLimitState [bigProfitPos] 1000 =
      ({ withLimitState with positions := [bigProfitPos] },
       some (.attrError "config" "BREAK_EVEN_TRIGGER")) := by
    rw [on_positions_update]
    norm_num [withLimitState, noLimitsState, bigProfitPos, posSweep, posStep,
      marketGetAtr, hbe]
  refine ⟨?_, ?_, ?_, by decide⟩
  · rw [on_positions_update]
    norm_num [noLimitsState]
  · rw [h2]
  · rw [h2]
    exact rfl

/-- C8: no `CLOSE_TICKET` is ever queued, so the "exactly one" of the claim
fails.  In the specification's own scenario (one ticket at `profit = 12`
against `pos_profit_limit = 10`, market open, `market.atr` present with
value 0 so the break-even block is skipped) the first trigger records the
ticket in `sent_closures` and then calls `_on_trade_command`, which raises
`AttributeError` at the `self.settings.symbol` fallback (the dataclass has
no such field) before the command string could be appended: zero commands
are queued.  The repeat snapshot one second later is inside the 2 s window
and queues nothing either. -/
theorem close_dedupe_never_queues :
    (on_positions_update dedupeState [dedupePos] 100).2 =
      some (.attrError "TradeSettings" "symbol") ∧
    (on_positions_update dedupeState [dedupePos] 100).1.pending_commands
      = [] ∧
    (on_positions_update dedupeState [dedupePos] 100).1.sent_closures =
      [(.intKey 1, 100)] ∧
    (on_positions_update
        (on_positions_update dedupeState [dedupePos] 100).1 [dedupePos]
        101).2 = none ∧
    (on_positions_update
        (on_positions_update dedupeState [dedupePos] 100).1 [dedupePos]
        101).1.pending_commands = [] := by
  have h1 : on_positions_update dedupeState [dedupePos] 100 =
      (dedupeStateAfter, some (.attrError "TradeSettings" "symbol")) := by
    rw [on_positions_update]
    norm_num [dedupeState, dedupePos, dedupeStateAfter, posSweep, posStep,
      marketGetAtr, lookupClosure, insertClosure, on_trade_command,
      resolveSymbol, settingsGetSymbol, pyOrStr]
  have h2 : on_positions_update dedupeStateAfter [dedupePos] 101 =
      (dedupeStateAfter, none) := by
    rw [on_positions_update]
    norm_num [dedupeState, dedupePos, dedupeStateAfter, posSweep, posStep,
      marketGetAtr, lookupClosure]
  rw [h1, h2]
  exact ⟨rfl, rfl, rfl, rfl, rfl⟩

/-- C9 (counterexample): for `buy_threshold = 0.05` — strictly between 0 and
0.1, where the claim says the divisor is floored at 0.0001 — the code's
divisor is `0.05/1000 = 0.00005`, not `max(0.05/1000, 0.0001) = 0.0001`:
the `or 0.75` default replaces only a *zero* threshold, and the `== 0`
re-floor never fires on a nonzero quotient. -/
theorem target_move_not_floored_cex :
    (0 : ℚ) < 1/20 ∧ (1/20 : ℚ) < 1/10 ∧
    target_move_pct (1/20) = 1/20000 ∧
    max ((1/20 : ℚ)/1000) (1/10000) = 1/10000 ∧
    target_move_pct (1/20) ≠ max ((1/20 : ℚ)/1000) (1/10000) := by
  rw [target_move_pct]
  norm_num

/-- C9 (amended): the divisor equals
`(buy_threshold if nonzero else 0.75) / 1000` — the exact-zero re-floor to
0.0001 is dead code — and the raw confidence stored by step 1 of
`evaluate_strategy` equals `min(|predicted_change_pct| / target_move_pct *
100, 120)` exactly as the spec's second sentence states. -/
theorem target_move_formula_and_raw_conf :
    ∀ (s : AppState) (d : EvalDeps), s.market.ask > 0 →
      target_move_pct s.settings.buy_threshold =
        (if s.settings.buy_threshold = 0 then 0.75
         else s.settings.buy_threshold) / 1000 ∧
      (evalStep1Market s.market s.settings.buy_threshold (some d)).confidence
        = min (|(d.predOut - s.market.ask) / s.market.ask| /
            target_move_pct s.settings.buy_threshold * 100) 120 := by
  intro s d h
  constructor
  · rw [target_move_pct]
    by_cases hb : s.settings.buy_threshold = 0
    · simp [hb]
      norm_num
    · simp [hb, div_eq_zero_iff]
  · simp [evalStep1Market, predictionConfidence, h]

/-- Witness for the amended C9 at the clamp scenario (threshold 0.75,
ask 100, predicted 101). -/
theorem target_move_formula_witness :
    target_move_pct clampState.settings.buy_threshold =
      (if clampState.settings.buy_threshold = 0 then 0.75
       else clampState.settings.buy_threshold) / 1000 ∧
    (evalStep1Market clampState.market clampState.settings.buy_threshold
        (some clampDeps)).confidence =
      min (|(clampDeps.predOut - clampState.market.ask) /
          clampState.market.ask| /
        target_move_pct clampState.settings.buy_threshold * 100) 120 :=
  target_move_formula_and_raw_conf clampState clampDeps
    (by norm_num [clampState])

/-- C10: `EventManager.emit` invokes every subscribed handler in
subscription order with the same payload — the invocation trace is exactly
the handler list mapped over the payload, so a raising handler never blocks
its later siblings — the raising handlers are exactly the ones logged, and
`emit` returns normally (it is a total function in this embedding because
the `try/except` catches every handler fault). -/
theorem emit_isolates_handler_faults :
    ∀ {α : Type} (hs : List (Handler α)) (d : α),
      (emitRun hs d).1 = hs.map (fun h => (h.name, d)) ∧
      (emitRun hs d).2 =
        (hs.filter (fun h => exceptRaised (h.call d))).map
          (fun h => h.name) := by
  intro α hs d
  induction hs with
  | nil => exact ⟨rfl, rfl⟩
  | cons h rest ih =>
    rw [emitRun, List.map_cons, List.filter_cons]
    cases hc : h.call d <;>
      simp [exceptRaised, hc, ih.1, ih.2]
